import Mathlib

/-!
Verification of the task/execution data model of the scheduler-mcp repository.

The definitions below are a shallow embedding of `mcp_scheduler/task.py`
(the `Task` and `TaskExecution` pydantic models, their validators and
serialisers) and of `mcp_scheduler/executors/tool_call.py` (the tool-call
executor).  Pydantic v1 validator semantics are modelled explicitly: a
`@validator` without `always=True` runs only when the field is supplied by
the caller; when the field is absent its default is used and the validator
is skipped.  Construction is therefore parameterised over an input record
whose fields distinguish "absent" (`none`) from "supplied" (`some v`,
where `v` may itself be Python `None`).

Effects that Python obtains from the ambient world (uuid generation and
`datetime.utcnow()`) are passed in as explicit parameters.
-/

namespace MCPScheduler

/-- JSON-like values: the shape of the Python payloads handled by the code
(`Dict[str, Any]` fields, executor results, input of `json.dumps`). -/
inductive Json where
  | null : Json
  | bool (b : Bool) : Json
  | num (n : Int) : Json
  | str (s : String) : Json
  | arr (elems : List Json) : Json
  | obj (fields : List (String × Json)) : Json

/-- Component-wise model of a Python `datetime.datetime` value
(`datetime.utcnow()` results and parsed ISO-8601 timestamps). -/
structure DateTime where
  year : Nat
  month : Nat
  day : Nat
  hour : Nat
  minute : Nat
  second : Nat
  microsecond : Nat
deriving DecidableEq, Repr

/-- The decimal digit character for `n` (callers pass `n < 10`). -/
def digitChar (n : Nat) : Char :=
  match n with
  | 0 => '0'
  | 1 => '1'
  | 2 => '2'
  | 3 => '3'
  | 4 => '4'
  | 5 => '5'
  | 6 => '6'
  | 7 => '7'
  | 8 => '8'
  | _ => '9'

/-- Zero-padded `w`-digit decimal rendering of `n`, most significant digit
first, as produced by Python `f"\x7bn:0wd\x7d"` format specifiers for in-range
values. -/
def natDigits : (w : Nat) → Nat → List Char
  | 0, _ => []
  | w + 1, n => digitChar (n / 10 ^ w % 10) :: natDigits w n

/-- Read exactly `w` decimal digits from the front of `cs`, extending the
accumulator `acc`; fails if a non-digit is met. -/
def readDigitsAux : (w : Nat) → Nat → List Char → Option (Nat × List Char)
  | 0, acc, cs => some (acc, cs)
  | w + 1, acc, c :: cs =>
      if 48 ≤ c.toNat && c.toNat ≤ 57 then
        readDigitsAux w (acc * 10 + (c.toNat - 48)) cs
      else
        none
  | _ + 1, _, [] => none

/-- Consume one expected character from the front of a character list. -/
def expectChar (c : Char) : List Char → Option (List Char)
  | d :: cs => if d = c then some cs else none
  | [] => none

/-- Parse an optional `.ffffff` microsecond suffix of an ISO-8601 timestamp. -/
def parseFrac : List Char → Option (Nat × List Char)
  | '.' :: cs => readDigitsAux 6 0 cs
  | cs => some (0, cs)

/-- The characters of `datetime.isoformat()`: `YYYY-MM-DDTHH:MM:SS`, with a
`.ffffff` suffix exactly when the microsecond component is non-zero. -/
def DateTime.isoChars (dt : DateTime) : List Char :=
  natDigits 4 dt.year ++
    ('-' :: (natDigits 2 dt.month ++
      ('-' :: (natDigits 2 dt.day ++
        ('T' :: (natDigits 2 dt.hour ++
          (':' :: (natDigits 2 dt.minute ++
            (':' :: (natDigits 2 dt.second ++
              (if dt.microsecond = 0 then []
               else '.' :: natDigits 6 dt.microsecond)))))))))))

/-- Python `datetime.isoformat()` for a `DateTime`. -/
def DateTime.isoformat (dt : DateTime) : String :=
  ⟨dt.isoChars⟩

/-- Parsing of an ISO-8601 timestamp, as pydantic does when a datetime field
receives a string. -/
def DateTime.fromIso? (s : String) : Option DateTime := do
  let (y, r1) ← readDigitsAux 4 0 s.data
  let r2 ← expectChar '-' r1
  let (mo, r3) ← readDigitsAux 2 0 r2
  let r4 ← expectChar '-' r3
  let (dd, r5) ← readDigitsAux 2 0 r4
  let r6 ← expectChar 'T' r5
  let (hh, r7) ← readDigitsAux 2 0 r6
  let r8 ← expectChar ':' r7
  let (mi, r9) ← readDigitsAux 2 0 r8
  let r10 ← expectChar ':' r9
  let (ss, r11) ← readDigitsAux 2 0 r10
  let (us, r12) ← parseFrac r11
  if r12 = [] then some ⟨y, mo, dd, hh, mi, ss, us⟩ else none

/-- Each component fits the zero-padded width used by `isoformat` (true of
every value representable by Python `datetime`, whose year is at most 9999). -/
def DateTime.validIso (dt : DateTime) : Bool :=
  dt.year < 10000 && dt.month < 100 && dt.day < 100 && dt.hour < 100 &&
    dt.minute < 100 && dt.second < 100 && dt.microsecond < 1000000

/-- `dt.validIso` for an optional timestamp, trivially true when absent. -/
def optValidIso : Option DateTime → Bool
  | none => true
  | some dt => dt.validIso

/-- A character in the 7-bit ASCII range `\x00`-`\x7F`, i.e. the characters
*kept* by `task.py`'s `re.sub(r"[^\x00-\x7F]+", "", text)`. -/
def isAsciiChar (c : Char) : Bool := c.toNat ≤ 127

/-- A character in the printable ASCII range `\x20`-`\x7E`. -/
def isPrintableAscii (c : Char) : Bool := 32 ≤ c.toNat && c.toNat ≤ 126

/-- Every character of `s` is 7-bit ASCII. -/
def allAscii (s : String) : Bool := s.data.all isAsciiChar

/-- `allAscii` for an optional string, trivially true when absent. -/
def allAsciiOpt : Option String → Bool
  | none => true
  | some s => allAscii s

/-- `task.py` `sanitize_ascii`: returns falsy input unchanged, otherwise
removes every character outside `\x00`-`\x7F`
(`re.sub(r"[^\x00-\x7F]+", "", text)`). -/
def sanitize_ascii (text : String) : String :=
  if text = "" then text else ⟨text.data.filter isAsciiChar⟩

/-- `task.py` `TaskStatus` (a Python `str` enum). -/
inductive TaskStatus where
  | pending
  | running
  | completed
  | failed
  | disabled
deriving DecidableEq, Repr

/-- The string tag of a `TaskStatus` member (its `.value`). -/
def TaskStatus.value : TaskStatus → String
  | .pending => "pending"
  | .running => "running"
  | .completed => "completed"
  | .failed => "failed"
  | .disabled => "disabled"

/-- Pydantic coercion of a string into the `TaskStatus` enum. -/
def TaskStatus.ofValue? (s : String) : Option TaskStatus :=
  if s = "pending" then some .pending
  else if s = "running" then some .running
  else if s = "completed" then some .completed
  else if s = "failed" then some .failed
  else if s = "disabled" then some .disabled
  else none

/-- `task.py` `TaskType` (a Python `str` enum). -/
inductive TaskType where
  | shell_command
  | api_call
  | ai
  | reminder
  | tool_call
deriving DecidableEq, Repr

/-- The string tag of a `TaskType` member (its `.value`). -/
def TaskType.value : TaskType → String
  | .shell_command => "shell_command"
  | .api_call => "api_call"
  | .ai => "ai"
  | .reminder => "reminder"
  | .tool_call => "tool_call"

/-- Pydantic coercion of a string into the `TaskType` enum. -/
def TaskType.ofValue? (s : String) : Option TaskType :=
  if s = "shell_command" then some .shell_command
  else if s = "api_call" then some .api_call
  else if s = "ai" then some .ai
  else if s = "reminder" then some .reminder
  else if s = "tool_call" then some .tool_call
  else none

/-- One entry of a pydantic `ValidationError`: the offending field's name
(`loc`) and the message of the `ValueError` the validator raised. -/
structure ValidationIssue where
  loc : String
  msg : String
deriving DecidableEq, Repr

/-- A pydantic `ValidationError` is a non-empty list of issues, gathered in
field-declaration order. -/
abbrev ValidationError := List ValidationIssue

/-- The stored `Task` pydantic model of `task.py` (field order follows the
class declaration). -/
structure Task where
  id : String
  name : String
  schedule : String
  type : TaskType
  command : Option String
  api_url : Option String
  api_method : Option String
  api_headers : Option (List (String × String))
  api_body : Option (List (String × Json))
  prompt : Option String
  tool : Option String
  method : Option String
  params : Option (List (String × Json))
  reminder_title : Option String
  reminder_message : Option String
  description : Option String
  enabled : Bool
  do_only_once : Bool
  last_run : Option DateTime
  next_run : Option DateTime
  status : TaskStatus
  created_at : DateTime
  updated_at : DateTime

/-- Keyword arguments of a `Task(...)` construction.  `none` means the
keyword was not supplied (pydantic then uses the field default and skips the
field's validators); `some v` means it was supplied with value `v`, where an
inner `none` is Python `None`. -/
structure TaskInput where
  id : Option String := none
  name : String
  schedule : String
  type : Option TaskType := none
  command : Option (Option String) := none
  api_url : Option (Option String) := none
  api_method : Option (Option String) := none
  api_headers : Option (Option (List (String × String))) := none
  api_body : Option (Option (List (String × Json))) := none
  prompt : Option (Option String) := none
  tool : Option (Option String) := none
  method : Option (Option String) := none
  params : Option (Option (List (String × Json))) := none
  reminder_title : Option (Option String) := none
  reminder_message : Option (Option String) := none
  description : Option (Option String) := none
  enabled : Option Bool := none
  do_only_once : Option Bool := none
  last_run : Option (Option DateTime) := none
  next_run : Option (Option DateTime) := none
  status : Option TaskStatus := none
  created_at : Option DateTime := none
  updated_at : Option DateTime := none

/-- Python falsiness of an optional string: `None` and `""` are falsy. -/
def strFalsy : Option String → Bool
  | none => true
  | some s => s == ""

/-- One `_require_*` validator of `task.py`.  It contributes an issue only
when the field was supplied (pydantic skips validators of absent fields:
`always=True` is not set), the task type matches, and the supplied value is
falsy. -/
def requireErr (supplied typeMatches : Bool) (v : Option String) (loc msg : String) :
    List ValidationIssue :=
  if supplied && typeMatches && strFalsy v then [⟨loc, msg⟩] else []

/-- The `_ascii_only` pre-validator applied to a supplied optional string. -/
def sanitizeSupplied : Option (Option String) → Option (Option String)
  | none => none
  | some v => some (v.map sanitize_ascii)

/-- `Task(...)` construction: pydantic validation of `task.py`'s `Task`.
`freshHex` stands for `uuid.uuid4().hex` and `now` for `datetime.utcnow()`,
used only for the fields whose defaults are generated.  Returns the stored
model, or the `ValidationError` raised (issues in field-declaration order:
command, api_url, prompt, tool, method, reminder_message). -/
def Task.construct (freshHex : String) (now : DateTime) (inp : TaskInput) :
    Except ValidationError Task :=
  let ty := inp.type.getD TaskType.shell_command
  let command := (sanitizeSupplied inp.command).getD none
  let api_url := inp.api_url.getD none
  let prompt := (sanitizeSupplied inp.prompt).getD none
  let tool := inp.tool.getD none
  let method := inp.method.getD none
  let reminder_message := (sanitizeSupplied inp.reminder_message).getD none
  let errs :=
    requireErr inp.command.isSome (ty == TaskType.shell_command) command
      "command" "Command is required for shell_command tasks" ++
    requireErr inp.api_url.isSome (ty == TaskType.api_call) api_url
      "api_url" "API URL is required for api_call tasks" ++
    requireErr inp.prompt.isSome (ty == TaskType.ai) prompt
      "prompt" "Prompt is required for AI tasks" ++
    requireErr inp.tool.isSome (ty == TaskType.tool_call) tool
      "tool" "Tool is required for tool_call tasks" ++
    requireErr inp.method.isSome (ty == TaskType.tool_call) method
      "method" "Method is required for tool_call tasks" ++
    requireErr inp.reminder_message.isSome (ty == TaskType.reminder) reminder_message
      "reminder_message" "Message is required for reminder tasks"
  if errs = [] then
    Except.ok
      { id := inp.id.getD ("task_" ++ freshHex.take 12)
        name := sanitize_ascii inp.name
        schedule := inp.schedule
        type := ty
        command := command
        api_url := api_url
        api_method := inp.api_method.getD none
        api_headers := inp.api_headers.getD none
        api_body := inp.api_body.getD none
        prompt := prompt
        tool := tool
        method := method
        params := inp.params.getD none
        reminder_title := (sanitizeSupplied inp.reminder_title).getD none
        reminder_message := reminder_message
        description := (sanitizeSupplied inp.description).getD none
        enabled := inp.enabled.getD true
        do_only_once := inp.do_only_once.getD true
        last_run := inp.last_run.getD none
        next_run := inp.next_run.getD none
        status := inp.status.getD TaskStatus.pending
        created_at := inp.created_at.getD now
        updated_at := inp.updated_at.getD now }
  else
    Except.error errs

/-- Dictionary value of an optional string (`None` becomes JSON null). -/
def jsonOfOptStr : Option String → Json
  | none => Json.null
  | some s => Json.str s

/-- Dictionary value of an optional datetime, rendered by `isoformat`. -/
def jsonOfOptDT : Option DateTime → Json
  | none => Json.null
  | some dt => Json.str dt.isoformat

/-- Dictionary value of the optional `api_headers` string map. -/
def jsonOfHeaders : Option (List (String × String)) → Json
  | none => Json.null
  | some hs => Json.obj (hs.map fun p => (p.1, Json.str p.2))

/-- Dictionary value of an optional `Dict[str, Any]` payload. -/
def jsonOfOptObj : Option (List (String × Json)) → Json
  | none => Json.null
  | some fs => Json.obj fs

/-- `Task.to_dict` of `task.py`: the serialisable dictionary, with the key
order of the source. -/
def Task.to_dict (t : Task) : List (String × Json) :=
  [("id", Json.str t.id),
   ("name", Json.str t.name),
   ("schedule", Json.str t.schedule),
   ("type", Json.str t.type.value),
   ("command", jsonOfOptStr t.command),
   ("api_url", jsonOfOptStr t.api_url),
   ("api_method", jsonOfOptStr t.api_method),
   ("api_headers", jsonOfHeaders t.api_headers),
   ("api_body", jsonOfOptObj t.api_body),
   ("prompt", jsonOfOptStr t.prompt),
   ("tool", jsonOfOptStr t.tool),
   ("method", jsonOfOptStr t.method),
   ("params", jsonOfOptObj t.params),
   ("description", jsonOfOptStr t.description),
   ("enabled", Json.bool t.enabled),
   ("do_only_once", Json.bool t.do_only_once),
   ("last_run", jsonOfOptDT t.last_run),
   ("next_run", jsonOfOptDT t.next_run),
   ("status", Json.str t.status.value),
   ("created_at", Json.str t.created_at.isoformat),
   ("updated_at", Json.str t.updated_at.isoformat),
   ("reminder_title", jsonOfOptStr t.reminder_title),
   ("reminder_message", jsonOfOptStr t.reminder_message)]

/-- The stored `TaskExecution` pydantic model of `task.py`. -/
structure TaskExecution where
  id : String
  task_id : String
  start_time : DateTime
  end_time : Option DateTime
  status : TaskStatus
  output : Option String
  error : Option String
deriving DecidableEq, Repr

/-- Keyword arguments of a `TaskExecution(...)` construction, with the same
supplied/absent convention as `TaskInput`. -/
structure ExecInput where
  id : Option String := none
  task_id : String
  start_time : Option DateTime := none
  end_time : Option (Option DateTime) := none
  status : Option TaskStatus := none
  output : Option (Option String) := none
  error : Option (Option String) := none

/-- `TaskExecution(...)` construction.  No `_require_*` validators exist on
this model, so construction always succeeds; the `_ascii_output`
pre-validator sanitizes supplied `output` and `error` strings. -/
def TaskExecution.construct (freshHex : String) (now : DateTime) (inp : ExecInput) :
    TaskExecution :=
  { id := inp.id.getD ("exec_" ++ freshHex.take 12)
    task_id := inp.task_id
    start_time := inp.start_time.getD now
    end_time := inp.end_time.getD none
    status := inp.status.getD TaskStatus.running
    output := (sanitizeSupplied inp.output).getD none
    error := (sanitizeSupplied inp.error).getD none }

/-- `TaskExecution.to_dict` of `task.py`. -/
def TaskExecution.to_dict (e : TaskExecution) : List (String × Json) :=
  [("id", Json.str e.id),
   ("task_id", Json.str e.task_id),
   ("start_time", Json.str e.start_time.isoformat),
   ("end_time", jsonOfOptDT e.end_time),
   ("status", Json.str e.status.value),
   ("output", jsonOfOptStr e.output),
   ("error", jsonOfOptStr e.error)]

/-- The lower-case hexadecimal digit character for `n` (callers pass
`n < 16`). -/
def hexDigitChar (n : Nat) : Char :=
  match n with
  | 0 => '0'
  | 1 => '1'
  | 2 => '2'
  | 3 => '3'
  | 4 => '4'
  | 5 => '5'
  | 6 => '6'
  | 7 => '7'
  | 8 => '8'
  | 9 => '9'
  | 10 => 'a'
  | 11 => 'b'
  | 12 => 'c'
  | 13 => 'd'
  | 14 => 'e'
  | _ => 'f'

/-- Four hexadecimal digits of `n`, as in a JSON `\uXXXX` escape. -/
def hex4 (n : Nat) : List Char :=
  [hexDigitChar (n / 4096 % 16), hexDigitChar (n / 256 % 16),
   hexDigitChar (n / 16 % 16), hexDigitChar (n % 16)]

/-- `json.dumps` escaping of one character (default `ensure_ascii=True`
behaviour: named escapes, `\uXXXX` for other control and non-ASCII
characters, surrogate pairs above the basic plane). -/
def escapeChar (c : Char) : List Char :=
  if c = '"' then ['\\', '"']
  else if c = '\\' then ['\\', '\\']
  else if c = '\n' then ['\\', 'n']
  else if c = '\t' then ['\\', 't']
  else if c = '\r' then ['\\', 'r']
  else if c.toNat = 8 then ['\\', 'b']
  else if c.toNat = 12 then ['\\', 'f']
  else if c.toNat < 32 then '\\' :: 'u' :: hex4 c.toNat
  else if c.toNat < 128 then [c]
  else if c.toNat < 65536 then '\\' :: 'u' :: hex4 c.toNat
  else
    '\\' :: 'u' :: hex4 (55296 + (c.toNat - 65536) / 1024) ++
      '\\' :: 'u' :: hex4 (56320 + (c.toNat - 65536) % 1024)

/-- `json.dumps` escaping of a string body. -/
def jsonEscape (s : String) : String :=
  ⟨s.data.foldr (fun c acc => escapeChar c ++ acc) []⟩

mutual

/-- Python `json.dumps` with its default separators `", "` and `": "`. -/
def jsonDumps : Json → String
  | Json.null => "null"
  | Json.bool true => "true"
  | Json.bool false => "false"
  | Json.num n => toString n
  | Json.str s => "\"" ++ jsonEscape s ++ "\""
  | Json.arr xs => "[" ++ jsonDumpsList xs ++ "]"
  | Json.obj fs => "\x7b" ++ jsonDumpsObj fs ++ "\x7d"

/-- `json.dumps` of array elements, comma separated. -/
def jsonDumpsList : List Json → String
  | [] => ""
  | [x] => jsonDumps x
  | x :: y :: xs => jsonDumps x ++ ", " ++ jsonDumpsList (y :: xs)

/-- `json.dumps` of object entries, comma separated. -/
def jsonDumpsObj : List (String × Json) → String
  | [] => ""
  | [(k, v)] => "\"" ++ jsonEscape k ++ "\": " ++ jsonDumps v
  | (k, v) :: e :: fs =>
      "\"" ++ jsonEscape k ++ "\": " ++ jsonDumps v ++ ", " ++ jsonDumpsObj (e :: fs)

end

/-- The executor result contract: the dictionary shape
`\x7b"status": ..., "data": ..., "error": ...\x7d` returned by executors
(`executors/tool_call.py` and §6 of the spec). -/
structure ExecResult where
  status : String
  data : Option String := none
  error : Option String := none
deriving DecidableEq, Repr

/-- `executors/tool_call.py` `execute`: invokes the MCP client with the
task's `tool`, `method` and `params or \x7b\x7d`.  `invoke` models
`client.invoke`; `Except.error msg` is a raised exception whose `str` is
`msg`.  A fault is caught and turned into an error-status result; otherwise
the result is serialised with `json.dumps` into `data`. -/
def tool_call_execute (invoke : Option String → Option String → List (String × Json) →
    Except String Json) (task : Task) : ExecResult :=
  match invoke task.tool task.method (task.params.getD []) with
  | Except.ok result => { status := "success", data := some (jsonDumps result) }
  | Except.error exc => { status := "error", error := some exc }

/-- The stubbed MCP client of `test_scheduler_core.py`'s
`test_scheduler_tool_call`: `invoke` asserts the tool and method and returns
`\x7b"pong": True\x7d`. -/
def stubInvoke : Option String → Option String → List (String × Json) →
    Except String Json :=
  fun tool method _ =>
    if tool == some "meta-ads-mcp" && method == some "ping" then
      Except.ok (Json.obj [("pong", Json.bool true)])
    else
      Except.error "unexpected tool or method"

/-- Errors of `run_task_now` lookups (§4.5 of the spec). -/
inductive SchedulerError where
  | taskNotFound
  | taskDisabled
deriving DecidableEq, Repr

/-- Modelled from the spec: the Executor Dispatcher (§4.2, §4.4).  The
concrete `Scheduler`/`Executor` modules of this repository are not under
`src/`; per the spec, dispatch opens an Execution (`task_id`,
`start_time=now`, `status=running`), runs the executor for the task, and
closes it: a `"success"`-status result closes with `status=completed` and
the result's `data` as the (sanitized) `output`, anything else closes with
`status=failed` and the result's `error` as the (sanitized) `error`.
`execHex` generates the execution id and `startT`/`endT` are the wall-clock
instants of opening and closing. -/
def dispatch (execHex : String) (startT endT : DateTime) (t : Task)
    (exec : Task → ExecResult) : TaskExecution :=
  let e := TaskExecution.construct execHex startT { task_id := t.id }
  let r := exec t
  if r.status == "success" then
    { e with end_time := some endT, status := TaskStatus.completed,
             output := r.data.map sanitize_ascii }
  else
    { e with end_time := some endT, status := TaskStatus.failed,
             error := r.error.map sanitize_ascii }

/-- Modelled from the spec: `Scheduler.run_task_now` (§4.5).  The concrete
`Scheduler` module is not under `src/`; per the spec, run-now fails with
`TaskNotFoundError` when the id is unknown, with `TaskDisabledError` when
the task is disabled, and otherwise bypasses the due-time check and
immediately dispatches, returning the resulting Execution. -/
def run_task_now (tasks : List Task) (tid : String) (execHex : String)
    (startT endT : DateTime) (exec : Task → ExecResult) :
    Except SchedulerError TaskExecution :=
  match tasks.find? (fun t => t.id == tid) with
  | none => Except.error SchedulerError.taskNotFound
  | some t =>
      if t.enabled then
        Except.ok (dispatch execHex startT endT t exec)
      else
        Except.error SchedulerError.taskDisabled

/-- Modelled from the spec: the shell-command executor body (§6, §8).  The
concrete shell executor is not under `src/`; the spec's scenario has the
command `"echo hi"` succeed, its standard output becoming the result's
`data`. -/
def echoShellExec : Task → ExecResult :=
  fun t =>
    if t.type == TaskType.shell_command && t.command == some "echo hi" then
      { status := "success", data := some "hi" }
    else
      { status := "error", error := some "command failed" }

/-- Decode a JSON string (pydantic coercion into a `str` field). -/
def decodeStr : Json → Option String
  | Json.str s => some s
  | _ => none

/-- Decode JSON null-or-string (pydantic coercion into `Optional[str]`). -/
def decodeOptStr : Json → Option (Option String)
  | Json.null => some none
  | Json.str s => some (some s)
  | _ => none

/-- Decode a JSON boolean (pydantic coercion into a `bool` field). -/
def decodeBool : Json → Option Bool
  | Json.bool b => some b
  | _ => none

/-- Decode a JSON string into a `TaskType` member. -/
def decodeType : Json → Option TaskType
  | Json.str s => TaskType.ofValue? s
  | _ => none

/-- Decode a JSON string into a `TaskStatus` member. -/
def decodeStatus : Json → Option TaskStatus
  | Json.str s => TaskStatus.ofValue? s
  | _ => none

/-- Decode an ISO-8601 JSON string into a datetime. -/
def decodeDT : Json → Option DateTime
  | Json.str s => DateTime.fromIso? s
  | _ => none

/-- Decode JSON null-or-ISO-string into `Optional[datetime]`. -/
def decodeOptDT : Json → Option (Option DateTime)
  | Json.null => some none
  | Json.str s => (DateTime.fromIso? s).map some
  | _ => none

/-- Decode the entries of a `Dict[str, str]` object. -/
def decodeHeaderFields : List (String × Json) → Option (List (String × String))
  | [] => some []
  | (k, Json.str v) :: rest => (decodeHeaderFields rest).map (fun r => (k, v) :: r)
  | _ => none

/-- Decode JSON null-or-object into `Optional[Dict[str, str]]`. -/
def decodeOptHeaders : Json → Option (Option (List (String × String)))
  | Json.null => some none
  | Json.obj fs => (decodeHeaderFields fs).map some
  | _ => none

/-- Decode JSON null-or-object into `Optional[Dict[str, Any]]`. -/
def decodeOptObj : Json → Option (Option (List (String × Json)))
  | Json.null => some none
  | Json.obj fs => some (some fs)
  | _ => none

/-- First quarter of the decoded keys of a `Task` dictionary (the decode is
split in four parts to keep each compiled function small). -/
structure DecA where
  id : String
  name : String
  schedule : String
  ty : TaskType
  command : Option String
  api_url : Option String

/-- Second quarter of the decoded keys of a `Task` dictionary. -/
structure DecB where
  api_method : Option String
  api_headers : Option (List (String × String))
  api_body : Option (List (String × Json))
  prompt : Option String
  tool : Option String
  method : Option String

/-- Third quarter of the decoded keys of a `Task` dictionary. -/
structure DecC where
  params : Option (List (String × Json))
  reminder_title : Option String
  reminder_message : Option String
  description : Option String
  enabled : Bool
  do_only_once : Bool

/-- Fourth quarter of the decoded keys of a `Task` dictionary. -/
structure DecD where
  last_run : Option DateTime
  next_run : Option DateTime
  status : TaskStatus
  created_at : DateTime
  updated_at : DateTime

/-- Decode the identity and first payload keys of a `Task` dictionary. -/
def decDictA (d : List (String × Json)) : Option DecA := do
  let id ← (d.lookup "id").bind decodeStr
  let name ← (d.lookup "name").bind decodeStr
  let schedule ← (d.lookup "schedule").bind decodeStr
  let ty ← (d.lookup "type").bind decodeType
  let command ← (d.lookup "command").bind decodeOptStr
  let api_url ← (d.lookup "api_url").bind decodeOptStr
  pure ⟨id, name, schedule, ty, command, api_url⟩

/-- Decode the remaining api, ai and tool-call payload keys. -/
def decDictB (d : List (String × Json)) : Option DecB := do
  let api_method ← (d.lookup "api_method").bind decodeOptStr
  let api_headers ← (d.lookup "api_headers").bind decodeOptHeaders
  let api_body ← (d.lookup "api_body").bind decodeOptObj
  let prompt ← (d.lookup "prompt").bind decodeOptStr
  let tool ← (d.lookup "tool").bind decodeOptStr
  let method ← (d.lookup "method").bind decodeOptStr
  pure ⟨api_method, api_headers, api_body, prompt, tool, method⟩

/-- Decode the params, reminder and flag keys. -/
def decDictC (d : List (String × Json)) : Option DecC := do
  let params ← (d.lookup "params").bind decodeOptObj
  let reminder_title ← (d.lookup "reminder_title").bind decodeOptStr
  let reminder_message ← (d.lookup "reminder_message").bind decodeOptStr
  let description ← (d.lookup "description").bind decodeOptStr
  let enabled ← (d.lookup "enabled").bind decodeBool
  let do_only_once ← (d.lookup "do_only_once").bind decodeBool
  pure ⟨params, reminder_title, reminder_message, description, enabled, do_only_once⟩

/-- Decode the bookkeeping timestamp and status keys. -/
def decDictD (d : List (String × Json)) : Option DecD := do
  let last_run ← (d.lookup "last_run").bind decodeOptDT
  let next_run ← (d.lookup "next_run").bind decodeOptDT
  let status ← (d.lookup "status").bind decodeStatus
  let created_at ← (d.lookup "created_at").bind decodeDT
  let updated_at ← (d.lookup "updated_at").bind decodeDT
  pure ⟨last_run, next_run, status, created_at, updated_at⟩

/-- Reconstruction of the keyword arguments of `Task(**d)` from a
dictionary: look each field up and coerce it as pydantic would; every field
is supplied.  Fails when a key is missing or a value has the wrong shape. -/
def inputOfDict (d : List (String × Json)) : Option TaskInput := do
  let a ← decDictA d
  let b ← decDictB d
  let c ← decDictC d
  let t ← decDictD d
  pure
    { id := some a.id
      name := a.name
      schedule := a.schedule
      type := some a.ty
      command := some a.command
      api_url := some a.api_url
      api_method := some b.api_method
      api_headers := some b.api_headers
      api_body := some b.api_body
      prompt := some b.prompt
      tool := some b.tool
      method := some b.method
      params := some c.params
      reminder_title := some c.reminder_title
      reminder_message := some c.reminder_message
      description := some c.description
      enabled := some c.enabled
      do_only_once := some c.do_only_once
      last_run := some t.last_run
      next_run := some t.next_run
      status := some t.status
      created_at := some t.created_at
      updated_at := some t.updated_at }

/-- The keyword arguments `Task(**t.to_dict())` receives, written directly
in terms of the original task: every field supplied with its stored value. -/
def inputOfTask (t : Task) : TaskInput :=
  { id := some t.id
    name := t.name
    schedule := t.schedule
    type := some t.type
    command := some t.command
    api_url := some t.api_url
    api_method := some t.api_method
    api_headers := some t.api_headers
    api_body := some t.api_body
    prompt := some t.prompt
    tool := some t.tool
    method := some t.method
    params := some t.params
    reminder_title := some t.reminder_title
    reminder_message := some t.reminder_message
    description := some t.description
    enabled := some t.enabled
    do_only_once := some t.do_only_once
    last_run := some t.last_run
    next_run := some t.next_run
    status := some t.status
    created_at := some t.created_at
    updated_at := some t.updated_at }

/-- The Unix epoch, used as a dummy clock where construction supplies every
timestamp explicitly. -/
def epochDT : DateTime := ⟨1970, 1, 1, 0, 0, 0, 0⟩

/-- `Task(**d)`: rebuild a `Task` from a serialised dictionary.  `none` when
the dictionary does not decode; otherwise the result of pydantic
construction (the generated-id and clock parameters are irrelevant because
every field is supplied). -/
def taskFromDict (d : List (String × Json)) : Option (Except ValidationError Task) :=
  (inputOfDict d).map (Task.construct "" epochDT)

/-- Python falsiness of an optional string, negated: a present, non-empty
value. -/
def strPresent (v : Option String) : Bool := !strFalsy v

/-- The type-specific required fields of `t` are present and non-empty
(the table of §3 of the spec). -/
def Task.requiredOk (t : Task) : Bool :=
  match t.type with
  | TaskType.shell_command => strPresent t.command
  | TaskType.api_call => strPresent t.api_url
  | TaskType.ai => strPresent t.prompt
  | TaskType.reminder => strPresent t.reminder_message
  | TaskType.tool_call => strPresent t.tool && strPresent t.method

/-- An optional string is a fixpoint of `sanitize_ascii`. -/
def sanitizedOpt : Option String → Bool
  | none => true
  | some s => sanitize_ascii s == s

/-- Every free-text field of `t` is already a fixpoint of `sanitize_ascii`. -/
def Task.sanitizedOk (t : Task) : Bool :=
  (sanitize_ascii t.name == t.name) && sanitizedOpt t.command &&
    sanitizedOpt t.prompt && sanitizedOpt t.reminder_title &&
    sanitizedOpt t.reminder_message && sanitizedOpt t.description

/-- Every timestamp stored on `t` fits `isoformat`'s padded widths. -/
def Task.datesOk (t : Task) : Bool :=
  t.created_at.validIso && t.updated_at.validIso &&
    optValidIso t.last_run && optValidIso t.next_run

/-- A sample timestamp with a non-zero microsecond component. -/
def dtA : DateTime := ⟨2024, 1, 2, 3, 4, 5, 6⟩

/-- A sample timestamp with a zero microsecond component. -/
def dtB : DateTime := ⟨2025, 12, 31, 23, 59, 59, 0⟩

/-- A sample closing timestamp for dispatched executions. -/
def dtEnd : DateTime := ⟨2026, 10, 12, 0, 0, 1, 0⟩

/-- The keyword arguments of the §8 shell scenario:
`Task(name="Test", schedule="* * * * *", type=TaskType.SHELL_COMMAND,
command="echo hi")`. -/
def c4Input : TaskInput :=
  { name := "Test", schedule := "* * * * *", type := some TaskType.shell_command,
    command := some (some "echo hi") }

/-- The stored task of the §8 shell scenario (uuid hex `0123456789abcdef`,
clock at the epoch). -/
def c4Task : Task :=
  { id := "task_0123456789ab", name := "Test", schedule := "* * * * *",
    type := TaskType.shell_command, command := some "echo hi", api_url := none,
    api_method := none, api_headers := none, api_body := none, prompt := none,
    tool := none, method := none, params := none, reminder_title := none,
    reminder_message := none, description := none, enabled := true,
    do_only_once := true, last_run := none, next_run := none,
    status := TaskStatus.pending, created_at := epochDT, updated_at := epochDT }

/-- The keyword arguments of the §8 tool-call scenario:
`Task(name="Ping MCP", schedule="@once", type=TaskType.TOOL_CALL,
tool="meta-ads-mcp", method="ping", params=\x7b\x7d)`. -/
def c5Input : TaskInput :=
  { name := "Ping MCP", schedule := "@once", type := some TaskType.tool_call,
    tool := some (some "meta-ads-mcp"), method := some (some "ping"),
    params := some (some []) }

/-- The stored task of the §8 tool-call scenario (uuid hex
`00c0ffee0000beef`, clock at the epoch). -/
def c5Task : Task :=
  { id := "task_00c0ffee0000", name := "Ping MCP", schedule := "@once",
    type := TaskType.tool_call, command := none, api_url := none,
    api_method := none, api_headers := none, api_body := none, prompt := none,
    tool := some "meta-ads-mcp", method := some "ping", params := some [],
    reminder_title := none, reminder_message := none, description := none,
    enabled := true, do_only_once := true, last_run := none, next_run := none,
    status := TaskStatus.pending, created_at := epochDT, updated_at := epochDT }

/-- A client stub whose invocation always raises. -/
def invokeBoom : Option String → Option String → List (String × Json) →
    Except String Json :=
  fun _ _ _ => Except.error "boom"

/-- A client stub whose invocation always returns `True`. -/
def invokeOkBool : Option String → Option String → List (String × Json) →
    Except String Json :=
  fun _ _ _ => Except.ok (Json.bool true)

/-- Keyword arguments holding a non-ASCII name and a description. -/
def c3Inp : TaskInput :=
  { name := "héllo", schedule := "s", description := some (some "ok") }

/-- The stored task for `c3Inp` (the é of the name is stripped). -/
def c3tW : Task :=
  { id := "task_abcdefabcdef", name := "hllo", schedule := "s",
    type := TaskType.shell_command, command := none, api_url := none,
    api_method := none, api_headers := none, api_body := none, prompt := none,
    tool := none, method := none, params := none, reminder_title := none,
    reminder_message := none, description := some "ok", enabled := true,
    do_only_once := true, last_run := none, next_run := none,
    status := TaskStatus.pending, created_at := epochDT, updated_at := epochDT }

/-- Execution keyword arguments holding a non-ASCII output and a `None`
error. -/
def c3eInpW : ExecInput :=
  { task_id := "task_x", output := some (some "põng"), error := some none }

/-- A task with every optional field absent. -/
def c6tA : Task :=
  { id := "task_a", name := "A", schedule := "* * * * *",
    type := TaskType.shell_command, command := some "echo", api_url := none,
    api_method := none, api_headers := none, api_body := none, prompt := none,
    tool := none, method := none, params := none, reminder_title := none,
    reminder_message := none, description := none, enabled := true,
    do_only_once := true, last_run := none, next_run := none,
    status := TaskStatus.pending, created_at := dtA, updated_at := dtA }

/-- A task with every optional field present. -/
def c6tB : Task :=
  { id := "task_b", name := "B", schedule := "0 0 * * *",
    type := TaskType.api_call, command := some "c", api_url := some "http://x",
    api_method := some "GET", api_headers := some [("k", "v")],
    api_body := some [("a", Json.num 1)], prompt := some "p", tool := some "t",
    method := some "m", params := some [("q", Json.str "r")],
    reminder_title := some "rt", reminder_message := some "rm",
    description := some "d", enabled := true, do_only_once := false,
    last_run := some dtA, next_run := some dtB, status := TaskStatus.completed,
    created_at := dtA, updated_at := dtB }

/-- An open (still running) execution record. -/
def c6eA : TaskExecution :=
  { id := "exec_a", task_id := "task_a", start_time := dtA, end_time := none,
    status := TaskStatus.running, output := none, error := none }

/-- A closed execution record with output and error text. -/
def c6eB : TaskExecution :=
  { id := "exec_b", task_id := "task_b", start_time := dtA,
    end_time := some dtB, status := TaskStatus.completed, output := some "out",
    error := some "err" }

/-- A tool-call task exercising every branch of the serialisation
round-trip: mixed present and absent optionals, sanitized text,
microsecond-bearing and zero-microsecond timestamps. -/
def c9tW : Task :=
  { id := "task_x", name := "Name", schedule := "* * * * *",
    type := TaskType.tool_call, command := none, api_url := some "http://e",
    api_method := none, api_headers := some [("a", "b")],
    api_body := some [("k", Json.num 3)], prompt := none,
    tool := some "meta-ads-mcp", method := some "ping", params := some [],
    reminder_title := some "rt", reminder_message := none,
    description := some "d", enabled := true, do_only_once := false,
    last_run := some dtA, next_run := none, status := TaskStatus.pending,
    created_at := dtB, updated_at := dtA }

/-! Helper lemmas -/

/-- Filtering twice with the same predicate filters once. -/
theorem filter_idem {α : Type} (p : α → Bool) (l : List α) :
    (l.filter p).filter p = l.filter p := by
  induction l with
  | nil => rfl
  | cons x xs ih =>
      by_cases h : p x = true <;> simp [List.filter_cons, h, ih]

/-- Every element of `l.filter p` satisfies `p`. -/
theorem all_filter_self {α : Type} (p : α → Bool) (l : List α) :
    (l.filter p).all p = true := by
  apply List.all_eq_true.mpr
  intro a ha
  exact (List.mem_filter.mp ha).2

/-- The output of `sanitize_ascii` is pure ASCII. -/
theorem allAscii_sanitize (s : String) : allAscii (sanitize_ascii s) = true := by
  unfold sanitize_ascii
  split
  · next h => rw [h]; rfl
  · next h => exact all_filter_self isAsciiChar s.data

/-- A supplied optional free-text argument is stored pure-ASCII. -/
theorem allAsciiOpt_sanitizeSupplied (v : Option (Option String)) :
    allAsciiOpt ((sanitizeSupplied v).getD none) = true := by
  match v with
  | none => rfl
  | some none => rfl
  | some (some s) => exact allAscii_sanitize s

/-! Claim C10 -/

/-- C10: `sanitize_ascii` is idempotent, and it is the identity on strings
containing only ASCII characters, in particular on the empty string. -/
theorem c10_sanitize_idempotent_ascii_identity :
    (∀ s, sanitize_ascii (sanitize_ascii s) = sanitize_ascii s) ∧
    (∀ s, s.data.all isAsciiChar = true → sanitize_ascii s = s) ∧
    sanitize_ascii "" = "" := by
  refine ⟨?_, ?_, rfl⟩
  · intro s
    unfold sanitize_ascii
    by_cases h : s = ""
    · simp [h]
    · rw [if_neg h]
      by_cases h2 : (⟨s.data.filter isAsciiChar⟩ : String) = ""
      · rw [if_pos h2]
      · rw [if_neg h2]
        exact congrArg String.mk (filter_idem isAsciiChar s.data)
  · intro s h
    unfold sanitize_ascii
    by_cases hs : s = ""
    · rw [if_pos hs]
    · rw [if_neg hs]
      obtain ⟨l⟩ := s
      refine congrArg String.mk ?_
      apply List.filter_eq_self.mpr
      intro a ha
      exact List.all_eq_true.mp h a ha

/-- Witness for C10 at concrete strings. -/
theorem c10_witness :
    sanitize_ascii (sanitize_ascii "résumé") = sanitize_ascii "résumé" ∧
    sanitize_ascii "plain ascii" = "plain ascii" :=
  ⟨c10_sanitize_idempotent_ascii_identity.1 "résumé",
   c10_sanitize_idempotent_ascii_identity.2.1 "plain ascii" (by decide)⟩

/-! Claim C7 -/

/-- C7: a `TaskExecution` constructed supplying only `task_id` opens with
status `running`, `start_time` equal to the current time, and `end_time`,
`output` and `error` all `None`. -/
theorem c7_open_execution_defaults (freshHex : String) (now : DateTime) (tid : String) :
    (TaskExecution.construct freshHex now { task_id := tid }).status = TaskStatus.running ∧
    (TaskExecution.construct freshHex now { task_id := tid }).start_time = now ∧
    (TaskExecution.construct freshHex now { task_id := tid }).end_time = none ∧
    (TaskExecution.construct freshHex now { task_id := tid }).output = none ∧
    (TaskExecution.construct freshHex now { task_id := tid }).error = none ∧
    (TaskExecution.construct freshHex now { task_id := tid }).task_id = tid :=
  ⟨rfl, rfl, rfl, rfl, rfl, rfl⟩

/-! Claim C8 -/

/-- C8: a `Task` constructed with only `name` and `schedule` supplied gets
`type=shell_command`, `enabled=True`, `do_only_once=True` (one-shot by
default), `status=pending`, `last_run=None`, `next_run=None`, and a fresh id
prefixed `task_` (built from the first 12 uuid hex digits). -/
theorem c8_construct_defaults (freshHex : String) (now : DateTime) (n s : String) :
    (Task.construct freshHex now { name := n, schedule := s }).map
        (fun t => (t.type, t.enabled, t.do_only_once, t.status, t.last_run,
                   t.next_run, t.id)) =
      Except.ok (TaskType.shell_command, true, true, TaskStatus.pending, none,
        none, "task_" ++ freshHex.take 12) := rfl

/-! Claim C1 -/

/-- C1: pydantic `@validator` without `always=True` is skipped when the
field is not supplied, so each task type's required-field check silently
passes when the field is absent: the `Task` is accepted and stores `None`.
The last conjunct shows that the validator does fire — with the issue
naming `api_url` — when the field is supplied with a falsy value, which is
the check the code intends. -/
theorem c1_missing_required_field_not_rejected :
    (Task.construct "0123456789abcdef" epochDT
        { name := "t", schedule := "* * * * *",
          type := some TaskType.api_call }).map Task.api_url = Except.ok none ∧
    (Task.construct "0123456789abcdef" epochDT
        { name := "t", schedule := "* * * * *",
          type := some TaskType.shell_command }).map Task.command = Except.ok none ∧
    (Task.construct "0123456789abcdef" epochDT
        { name := "t", schedule := "* * * * *",
          type := some TaskType.ai }).map Task.prompt = Except.ok none ∧
    (Task.construct "0123456789abcdef" epochDT
        { name := "t", schedule := "* * * * *",
          type := some TaskType.reminder }).map Task.reminder_message = Except.ok none ∧
    (Task.construct "0123456789abcdef" epochDT
        { name := "t", schedule := "* * * * *",
          type := some TaskType.tool_call }).map Task.tool = Except.ok none ∧
    Task.construct "0123456789abcdef" epochDT
        { name := "t", schedule := "* * * * *", type := some TaskType.api_call,
          api_url := some none } =
      Except.error [⟨"api_url", "API URL is required for api_call tasks"⟩] :=
  ⟨rfl, rfl, rfl, rfl, rfl, rfl⟩

/-! Claim C2 -/

/-- C2: the tool-call executor never lets a fault escape: when the client
invocation raises, `execute` returns the error-status dictionary carrying
the fault's message; otherwise it returns the success-status dictionary
carrying the JSON serialisation of the client's result. -/
theorem c2_tool_call_execute_total (invoke : Option String → Option String →
    List (String × Json) → Except String Json) (task : Task) :
    (∀ msg, invoke task.tool task.method (task.params.getD []) = Except.error msg →
      tool_call_execute invoke task =
        { status := "error", data := none, error := some msg }) ∧
    (∀ r, invoke task.tool task.method (task.params.getD []) = Except.ok r →
      tool_call_execute invoke task =
        { status := "success", data := some (jsonDumps r), error := none }) := by
  constructor
  · intro msg h
    unfold tool_call_execute
    rw [h]
  · intro r h
    unfold tool_call_execute
    rw [h]

/-- Witness for C2: a raising stub yields the error dictionary, a returning
stub yields the success dictionary. -/
theorem c2_witness :
    tool_call_execute invokeBoom c4Task =
      { status := "error", data := none, error := some "boom" } ∧
    tool_call_execute invokeOkBool c4Task =
      { status := "success", data := some "true", error := none } :=
  ⟨(c2_tool_call_execute_total invokeBoom c4Task).1 "boom" rfl,
   (c2_tool_call_execute_total invokeOkBool c4Task).2 (Json.bool true) rfl⟩

/-! Claim C5 -/

/-- C5: for the tool-call scenario task (`tool="meta-ads-mcp"`,
`method="ping"`, `params=\x7b\x7d`), with the stubbed client returning
`\x7b"pong": True\x7d`, the executor yields status `"success"` and a data
text containing `"pong"`. -/
theorem c5_tool_call_ping_pong :
    Task.construct "00c0ffee0000beef" epochDT c5Input = Except.ok c5Task ∧
    (tool_call_execute stubInvoke c5Task).status = "success" ∧
    (tool_call_execute stubInvoke c5Task).data =
      some ("\x7b\"" ++ "pong" ++ "\": true\x7d") :=
  ⟨rfl, rfl, rfl⟩

/-! Claim C4 -/

/-- C4 counterexample: for the §8 shell scenario, `run_task_now` returns an
Execution whose status renders as `"completed"`, which is not the string
`"success"` the claim demands. -/
theorem c4_status_is_not_success :
    Task.construct "0123456789abcdef" epochDT c4Input = Except.ok c4Task ∧
    (run_task_now [c4Task] "task_0123456789ab" "e0" epochDT dtEnd
        echoShellExec).map (fun e => e.status.value) = Except.ok "completed" ∧
    ("completed" : String) ≠ "success" :=
  ⟨rfl, rfl, by decide⟩

/-- C4 amended: for the §8 shell scenario, `run_task_now` returns the
success outcome: an Execution closed with `status=completed` (the terminal
status of a successful dispatch), the command's output, and no error. -/
theorem c4_run_now_returns_completed :
    run_task_now [c4Task] "task_0123456789ab" "e0" epochDT dtEnd echoShellExec =
      Except.ok { id := "exec_e0", task_id := "task_0123456789ab",
                  start_time := epochDT, end_time := some dtEnd,
                  status := TaskStatus.completed, output := some "hi",
                  error := none } := rfl

/-! Claim C3 -/

/-- C3 counterexample: sanitation keeps ASCII control characters, so a
stored free-text field can contain characters outside the printable range:
a name containing BEL (`\x07`) is stored unchanged and is not all
printable. -/
theorem c3_control_char_survives_sanitation :
    (Task.construct "0123456789abcdef" epochDT
        { name := "a\x07b", schedule := "s" }).map Task.name =
      Except.ok "a\x07b" ∧
    "a\x07b".data.all isPrintableAscii = false :=
  ⟨rfl, by decide⟩

/-- C3 amended: the sanitation step removes exactly the characters outside
the 7-bit ASCII range `\x00`-`\x7F` (not the printable range): every stored
free-text field of a constructed `Task` (`name`, `command`, `prompt`,
`description`, `reminder_title`, `reminder_message`) and the `output` and
`error` of a constructed `TaskExecution` contain only ASCII characters. -/
theorem c3_stored_text_is_ascii :
    (∀ freshHex now inp t, Task.construct freshHex now inp = Except.ok t →
      (allAscii t.name && allAsciiOpt t.command && allAsciiOpt t.prompt &&
        allAsciiOpt t.description && allAsciiOpt t.reminder_title &&
        allAsciiOpt t.reminder_message) = true) ∧
    (∀ freshHex now inp,
      (allAsciiOpt (TaskExecution.construct freshHex now inp).output &&
        allAsciiOpt (TaskExecution.construct freshHex now inp).error) = true) := by
  constructor
  · intro freshHex now inp t h
    simp only [Task.construct] at h
    split at h
    · rw [Except.ok.injEq] at h
      subst h
      simp [allAscii_sanitize, allAsciiOpt_sanitizeSupplied]
    · exact absurd h (by simp)
  · intro freshHex now inp
    simp [TaskExecution.construct, allAsciiOpt_sanitizeSupplied]

/-- Witness for C3 amended, at a construction with non-ASCII input text. -/
theorem c3_witness :
    (allAscii c3tW.name && allAsciiOpt c3tW.command && allAsciiOpt c3tW.prompt &&
      allAsciiOpt c3tW.description && allAsciiOpt c3tW.reminder_title &&
      allAsciiOpt c3tW.reminder_message) = true ∧
    (allAsciiOpt (TaskExecution.construct "beefbeefbeef" epochDT c3eInpW).output &&
      allAsciiOpt (TaskExecution.construct "beefbeefbeef" epochDT c3eInpW).error) = true :=
  ⟨c3_stored_text_is_ascii.1 "abcdefabcdef" epochDT c3Inp c3tW rfl,
   c3_stored_text_is_ascii.2 "beefbeefbeef" epochDT c3eInpW⟩

/-! Claim C6 -/

/-- C6: `to_dict` of every `Task` and `TaskExecution` contains all fields
(first group: the exact key lists, and the enum tags and mandatory
timestamps rendered as strings), renders present optional timestamps as
ISO-8601 text (second group), and stores null for every absent optional
field (third group). -/
theorem c6_to_dict_all_fields (t : Task) (e : TaskExecution) :
    (t.to_dict.map Prod.fst =
        ["id", "name", "schedule", "type", "command", "api_url", "api_method",
         "api_headers", "api_body", "prompt", "tool", "method", "params",
         "description", "enabled", "do_only_once", "last_run", "next_run",
         "status", "created_at", "updated_at", "reminder_title",
         "reminder_message"] ∧
      t.to_dict.lookup "type" = some (Json.str t.type.value) ∧
      t.to_dict.lookup "status" = some (Json.str t.status.value) ∧
      t.to_dict.lookup "created_at" = some (Json.str t.created_at.isoformat) ∧
      t.to_dict.lookup "updated_at" = some (Json.str t.updated_at.isoformat) ∧
      e.to_dict.map Prod.fst =
        ["id", "task_id", "start_time", "end_time", "status", "output",
         "error"] ∧
      e.to_dict.lookup "status" = some (Json.str e.status.value) ∧
      e.to_dict.lookup "start_time" = some (Json.str e.start_time.isoformat)) ∧
    ((∀ d, t.last_run = some d →
        t.to_dict.lookup "last_run" = some (Json.str d.isoformat)) ∧
      (∀ d, t.next_run = some d →
        t.to_dict.lookup "next_run" = some (Json.str d.isoformat)) ∧
      (∀ d, e.end_time = some d →
        e.to_dict.lookup "end_time" = some (Json.str d.isoformat))) ∧
    ((t.last_run = none → t.to_dict.lookup "last_run" = some Json.null) ∧
      (t.next_run = none → t.to_dict.lookup "next_run" = some Json.null) ∧
      (t.command = none → t.to_dict.lookup "command" = some Json.null) ∧
      (t.api_url = none → t.to_dict.lookup "api_url" = some Json.null) ∧
      (t.api_method = none → t.to_dict.lookup "api_method" = some Json.null) ∧
      (t.api_headers = none → t.to_dict.lookup "api_headers" = some Json.null) ∧
      (t.api_body = none → t.to_dict.lookup "api_body" = some Json.null) ∧
      (t.prompt = none → t.to_dict.lookup "prompt" = some Json.null) ∧
      (t.tool = none → t.to_dict.lookup "tool" = some Json.null) ∧
      (t.method = none → t.to_dict.lookup "method" = some Json.null) ∧
      (t.params = none → t.to_dict.lookup "params" = some Json.null) ∧
      (t.description = none → t.to_dict.lookup "description" = some Json.null) ∧
      (t.reminder_title = none →
        t.to_dict.lookup "reminder_title" = some Json.null) ∧
      (t.reminder_message = none →
        t.to_dict.lookup "reminder_message" = some Json.null) ∧
      (e.end_time = none → e.to_dict.lookup "end_time" = some Json.null) ∧
      (e.output = none → e.to_dict.lookup "output" = some Json.null) ∧
      (e.error = none → e.to_dict.lookup "error" = some Json.null)) := by
  obtain ⟨tid, tname, tsch, tty, tcmd, turl, tam, tah, tab, tpr, ttool, tmeth,
    tpar, trt, trm, tdesc, ten, tonce, tlr, tnr, tst, tca, tua⟩ := t
  obtain ⟨eid, etid, est, eet, estat, eout, eerr⟩ := e
  refine ⟨⟨rfl, rfl, rfl, rfl, rfl, rfl, rfl, rfl⟩, ⟨?_, ?_, ?_⟩,
    ⟨?_, ?_, ?_, ?_, ?_, ?_, ?_, ?_, ?_, ?_, ?_, ?_, ?_, ?_, ?_, ?_, ?_⟩⟩ <;>
    (intros; subst_vars; rfl)

/-- Witness for C6, at a task and execution with every optional absent and
at a task and execution with every optional present. -/
theorem c6_witness :
    (c6tA.to_dict.lookup "last_run" = some Json.null ∧
      c6tA.to_dict.lookup "next_run" = some Json.null ∧
      c6tA.to_dict.lookup "api_url" = some Json.null ∧
      c6tA.to_dict.lookup "api_method" = some Json.null ∧
      c6tA.to_dict.lookup "api_headers" = some Json.null ∧
      c6tA.to_dict.lookup "api_body" = some Json.null ∧
      c6tA.to_dict.lookup "prompt" = some Json.null ∧
      c6tA.to_dict.lookup "tool" = some Json.null ∧
      c6tA.to_dict.lookup "method" = some Json.null ∧
      c6tA.to_dict.lookup "params" = some Json.null ∧
      c6tA.to_dict.lookup "description" = some Json.null ∧
      c6tA.to_dict.lookup "reminder_title" = some Json.null ∧
      c6tA.to_dict.lookup "reminder_message" = some Json.null ∧
      c6eA.to_dict.lookup "end_time" = some Json.null ∧
      c6eA.to_dict.lookup "output" = some Json.null ∧
      c6eA.to_dict.lookup "error" = some Json.null) ∧
    (c6tB.to_dict.lookup "last_run" = some (Json.str dtA.isoformat) ∧
      c6tB.to_dict.lookup "next_run" = some (Json.str dtB.isoformat) ∧
      c6eB.to_dict.lookup "end_time" = some (Json.str dtB.isoformat) ∧
      c6tB.to_dict.lookup "command" = some (Json.str "c")) := by
  have hA := c6_to_dict_all_fields c6tA c6eA
  have hB := c6_to_dict_all_fields c6tB c6eB
  refine ⟨⟨hA.2.2.1 rfl, hA.2.2.2.1 rfl, hA.2.2.2.2.2.1 rfl,
    hA.2.2.2.2.2.2.1 rfl, hA.2.2.2.2.2.2.2.1 rfl, hA.2.2.2.2.2.2.2.2.1 rfl,
    hA.2.2.2.2.2.2.2.2.2.1 rfl, hA.2.2.2.2.2.2.2.2.2.2.1 rfl,
    hA.2.2.2.2.2.2.2.2.2.2.2.1 rfl, hA.2.2.2.2.2.2.2.2.2.2.2.2.1 rfl,
    hA.2.2.2.2.2.2.2.2.2.2.2.2.2.1 rfl,
    hA.2.2.2.2.2.2.2.2.2.2.2.2.2.2.1 rfl,
    hA.2.2.2.2.2.2.2.2.2.2.2.2.2.2.2.1 rfl,
    hA.2.2.2.2.2.2.2.2.2.2.2.2.2.2.2.2.1 rfl,
    hA.2.2.2.2.2.2.2.2.2.2.2.2.2.2.2.2.2.1 rfl,
    hA.2.2.2.2.2.2.2.2.2.2.2.2.2.2.2.2.2.2 rfl⟩,
    ⟨hB.2.1.1 dtA rfl, hB.2.1.2.1 dtB rfl, hB.2.1.2.2 dtB rfl, rfl⟩⟩

/-! Claim C9 -/

/-- `digitChar` renders the expected code point. -/
theorem digitChar_toNat (m : Nat) (h : m < 10) : (digitChar m).toNat = 48 + m := by
  interval_cases m <;> rfl

/-- Reading back `w` rendered digits recovers the value modulo `10 ^ w`. -/
theorem read_natDigits (w : Nat) : ∀ (acc n : Nat) (rest : List Char),
    readDigitsAux w acc (natDigits w n ++ rest) =
      some (acc * 10 ^ w + n % 10 ^ w, rest) := by
  induction w with
  | zero => intro acc n rest; simp [natDigits, readDigitsAux, Nat.mod_one]
  | succ w ih =>
      intro acc n rest
      have hd : n / 10 ^ w % 10 < 10 := Nat.mod_lt _ (by omega)
      have hc : (digitChar (n / 10 ^ w % 10)).toNat = 48 + n / 10 ^ w % 10 :=
        digitChar_toNat _ hd
      simp only [natDigits, List.cons_append, readDigitsAux, hc]
      rw [if_pos (by simp; omega)]
      rw [show 48 + n / 10 ^ w % 10 - 48 = n / 10 ^ w % 10 by omega]
      simp only [List.append_eq]
      rw [ih]
      congr 1
      have hsplit : n % 10 ^ (w + 1) = n / 10 ^ w % 10 * 10 ^ w + n % 10 ^ w := by
        conv_lhs => rw [pow_succ, Nat.mod_mul]
        ring
      rw [hsplit]
      ring_nf

set_option maxHeartbeats 2000000 in
/-- Parsing recovers any in-range timestamp from its `isoformat` text. -/
theorem fromIso_isoformat (dt : DateTime) (h : dt.validIso = true) :
    DateTime.fromIso? dt.isoformat = some dt := by
  obtain ⟨y, mo, dd, hh, mi, ss, us⟩ := dt
  simp only [DateTime.validIso, Bool.and_eq_true, decide_eq_true_eq] at h
  obtain ⟨⟨⟨⟨⟨⟨h1, h2⟩, h3⟩, h4⟩, h5⟩, h6⟩, h7⟩ := h
  unfold DateTime.fromIso? DateTime.isoformat DateTime.isoChars
  have hr6 : readDigitsAux 6 0 (natDigits 6 us) = some (0 * 10 ^ 6 + us % 10 ^ 6, []) := by
    have h0 := read_natDigits 6 0 us []
    rwa [List.append_nil] at h0
  by_cases hus : us = 0
  · subst hus
    simp only [reduceIte, read_natDigits, Option.bind_eq_bind', Option.some_bind,
      expectChar, parseFrac, Nat.reducePow, Nat.zero_mul, Nat.zero_add,
      Nat.mod_eq_of_lt h1, Nat.mod_eq_of_lt h2, Nat.mod_eq_of_lt h3,
      Nat.mod_eq_of_lt h4, Nat.mod_eq_of_lt h5, Nat.mod_eq_of_lt h6]
  · simp only [if_neg hus, reduceIte, read_natDigits, Option.bind_eq_bind',
      Option.some_bind, expectChar, parseFrac, hr6, Nat.reducePow, Nat.zero_mul,
      Nat.zero_add, Nat.mod_eq_of_lt h1, Nat.mod_eq_of_lt h2,
      Nat.mod_eq_of_lt h3, Nat.mod_eq_of_lt h4, Nat.mod_eq_of_lt h5,
      Nat.mod_eq_of_lt h6, Nat.mod_eq_of_lt h7]

/-- Decoding inverts the optional-string dictionary encoding. -/
theorem decodeOptStr_jsonOfOptStr (o : Option String) :
    decodeOptStr (jsonOfOptStr o) = some o := by
  cases o <;> rfl

/-- Decoding inverts the optional-payload dictionary encoding. -/
theorem decodeOptObj_jsonOfOptObj (o : Option (List (String × Json))) :
    decodeOptObj (jsonOfOptObj o) = some o := by
  cases o <;> rfl

/-- Decoding inverts the header-entry encoding. -/
theorem decodeHeaderFields_map (hs : List (String × String)) :
    decodeHeaderFields (hs.map fun p => (p.1, Json.str p.2)) = some hs := by
  induction hs with
  | nil => rfl
  | cons p rest ih =>
      obtain ⟨k, v⟩ := p
      simp [decodeHeaderFields, ih]

/-- Decoding inverts the optional header-map encoding. -/
theorem decodeOptHeaders_jsonOfHeaders (o : Option (List (String × String))) :
    decodeOptHeaders (jsonOfHeaders o) = some o := by
  cases o with
  | none => rfl
  | some hs => simp [jsonOfHeaders, decodeOptHeaders, decodeHeaderFields_map]

/-- The enum coercion inverts `TaskType.value`. -/
theorem decodeType_value (ty : TaskType) :
    decodeType (Json.str ty.value) = some ty := by
  cases ty <;> rfl

/-- The enum coercion inverts `TaskStatus.value`. -/
theorem decodeStatus_value (st : TaskStatus) :
    decodeStatus (Json.str st.value) = some st := by
  cases st <;> rfl

/-- The datetime coercion inverts `isoformat` on in-range timestamps. -/
theorem decodeDT_isoformat (dt : DateTime) (h : dt.validIso = true) :
    decodeDT (Json.str dt.isoformat) = some dt := by
  simp [decodeDT, fromIso_isoformat dt h]

/-- The optional-datetime coercion inverts the dictionary encoding. -/
theorem decodeOptDT_jsonOfOptDT (o : Option DateTime) (h : optValidIso o = true) :
    decodeOptDT (jsonOfOptDT o) = some o := by
  cases o with
  | none => rfl
  | some dt => simp [jsonOfOptDT, decodeOptDT, fromIso_isoformat dt h]

/-- First-quarter decode of a serialised task recovers the stored fields. -/
theorem decDictA_to_dict (t : Task) :
    decDictA t.to_dict =
      some ⟨t.id, t.name, t.schedule, t.type, t.command, t.api_url⟩ := by
  simp [decDictA, Task.to_dict, List.lookup, decodeStr, decodeType_value,
    decodeOptStr_jsonOfOptStr]

/-- Second-quarter decode of a serialised task recovers the stored fields. -/
theorem decDictB_to_dict (t : Task) :
    decDictB t.to_dict =
      some ⟨t.api_method, t.api_headers, t.api_body, t.prompt, t.tool, t.method⟩ := by
  simp [decDictB, Task.to_dict, List.lookup, decodeOptStr_jsonOfOptStr,
    decodeOptHeaders_jsonOfHeaders, decodeOptObj_jsonOfOptObj]

/-- Third-quarter decode of a serialised task recovers the stored fields. -/
theorem decDictC_to_dict (t : Task) :
    decDictC t.to_dict =
      some ⟨t.params, t.reminder_title, t.reminder_message, t.description,
        t.enabled, t.do_only_once⟩ := by
  simp [decDictC, Task.to_dict, List.lookup, decodeOptStr_jsonOfOptStr,
    decodeOptObj_jsonOfOptObj, decodeBool]

/-- Fourth-quarter decode of a serialised task recovers the stored fields,
given in-range timestamps. -/
theorem decDictD_to_dict (t : Task) (hdt : t.datesOk = true) :
    decDictD t.to_dict =
      some ⟨t.last_run, t.next_run, t.status, t.created_at, t.updated_at⟩ := by
  simp only [Task.datesOk, Bool.and_eq_true] at hdt
  obtain ⟨⟨⟨hca, hua⟩, hlr⟩, hnr⟩ := hdt
  simp [decDictD, Task.to_dict, List.lookup, decodeOptDT_jsonOfOptDT _ hlr,
    decodeOptDT_jsonOfOptDT _ hnr, decodeStatus_value,
    decodeDT_isoformat _ hca, decodeDT_isoformat _ hua]

/-- Decoding a serialised task supplies every keyword with its stored
value. -/
theorem inputOfDict_to_dict (t : Task) (hdt : t.datesOk = true) :
    inputOfDict t.to_dict = some (inputOfTask t) := by
  simp [inputOfDict, decDictA_to_dict, decDictB_to_dict, decDictC_to_dict,
    decDictD_to_dict t hdt, inputOfTask]

/-- Re-sanitising an already-sanitised optional string changes nothing. -/
theorem sanitizedOpt_map (v : Option String) (h : sanitizedOpt v = true) :
    v.map sanitize_ascii = v := by
  cases v with
  | none => rfl
  | some s =>
      simp only [sanitizedOpt, beq_iff_eq] at h
      simp [h]

/-- Reconstructing a task from its own stored keyword values succeeds and
reproduces it, when the required fields are present and the text fields are
already sanitized. -/
theorem construct_inputOfTask (t : Task) (hreq : t.requiredOk = true)
    (hsan : t.sanitizedOk = true) :
    Task.construct "" epochDT (inputOfTask t) = Except.ok t := by
  obtain ⟨tid, tname, tsch, tty, tcmd, turl, tam, tah, tab, tpr, ttool, tmeth,
    tpar, trt, trm, tdesc, ten, tonce, tlr, tnr, tst, tca, tua⟩ := t
  simp only [Task.sanitizedOk, Bool.and_eq_true, beq_iff_eq] at hsan
  obtain ⟨⟨⟨⟨⟨hn, hc⟩, hp⟩, hrt⟩, hrm⟩, hd⟩ := hsan
  simp only [Task.requiredOk] at hreq
  simp only [Task.construct, inputOfTask, sanitizeSupplied, Option.getD_some,
    sanitizedOpt_map _ hc, sanitizedOpt_map _ hp, sanitizedOpt_map _ hrt,
    sanitizedOpt_map _ hrm, sanitizedOpt_map _ hd, hn, Option.isSome_some]
  cases tty <;>
    simp_all [requireErr, strFalsy, strPresent, Bool.and_eq_true]

/-- C9: serialisation round-trips — for every task whose type-required
fields are present and non-empty, whose free-text fields are already
sanitized (and whose timestamps are in `datetime`'s representable range),
constructing a new `Task` from the dictionary `to_dict` produces a task
equal to the original in every field. -/
theorem c9_to_dict_roundtrip (t : Task) (hreq : t.requiredOk = true)
    (hsan : t.sanitizedOk = true) (hdt : t.datesOk = true) :
    taskFromDict t.to_dict = some (Except.ok t) := by
  unfold taskFromDict
  rw [inputOfDict_to_dict t hdt]
  simp only [Option.map_some']
  rw [construct_inputOfTask t hreq hsan]

/-- Witness for C9 at a concrete tool-call task with mixed optionals. -/
theorem c9_witness : taskFromDict c9tW.to_dict = some (Except.ok c9tW) :=
  c9_to_dict_roundtrip c9tW (by decide) (by decide) (by decide)

end MCPScheduler
